import Mathlib

/-!
Verification of the VLE core of `binaria_noideal.py`: the Antoine saturation
pressure function, the Van Laar activity-coefficient model, and the two
equilibrium solvers (isothermal direct evaluation, isobaric root search).

Python floats are modelled as real numbers; a raised `ValueError` is modelled
as `Except.error`; the external numerical root finder `scipy.optimize.fsolve`
is abstracted as a function parameter `solve` taking the objective function
and the initial guess and returning a temperature (scipy returns the last
iterate unconditionally, whether or not it converged, and the Python code
never inspects the convergence flag).
-/

namespace BinariaNoideal

noncomputable section

open Classical Real

/-- The single error channel of the Python source: a `ValueError` carrying a
message. -/
inductive VLEError where
  | domainError (msg : String)

/-- Message of `antoine_pressure` for the singular temperature `T + C = 0`. -/
def antoineSingularMsg : String :=
  "La temperatura (T) mas la constante C de Antoine no pueden ser cero."

/-- Message of `van_laar_activity_coefficients` for a composition outside
`[0, 1]`. -/
def compositionMsg : String :=
  "La fraccion molar x_A debe estar entre 0 y 1."

/-- Message of `van_laar_activity_coefficients` for a zero denominator. -/
def denominatorMsg : String :=
  "Denominador cero en el calculo de Van Laar. Revise los parametros A12, A21 y x_A."

/-- `antoine_pressure(A, B, C, T)`: saturation pressure
`P0 = 10^(A - B / (T + C))`, raising on the Antoine singularity `T + C = 0`. -/
def antoine_pressure (A B C T : ℝ) : Except VLEError ℝ :=
  if T + C = 0 then
    .error (.domainError antoineSingularMsg)
  else
    .ok ((10 : ℝ) ^ (A - B / (T + C)))

/-- `van_laar_activity_coefficients(x_A, A12, A21)`: activity coefficients
`(gamma_A, gamma_B)` of the Van Laar model, with the source's explicit
boundary branches at `x_A = 0` and `x_B = 0` and its general-case formula
`ln gamma_A = A12 * ((A12 * A21 * x_B) / D^2)`,
`ln gamma_B = A21 * ((A12 * A21 * x_A) / D^2)` for `D = A12 * x_A + A21 * x_B`. -/
def van_laar_activity_coefficients (x_A A12 A21 : ℝ) : Except VLEError (ℝ × ℝ) :=
  if ¬ (0 ≤ x_A ∧ x_A ≤ 1) then
    .error (.domainError compositionMsg)
  else
    let x_B := 1 - x_A
    if x_A = 0 then
      .ok (Real.exp A12, Real.exp 0)
    else if x_B = 0 then
      .ok (Real.exp 0, Real.exp A21)
    else
      let denominator := A12 * x_A + A21 * x_B
      if denominator = 0 then
        .error (.domainError denominatorMsg)
      else
        let term_A := (A12 * A21 * x_B) / denominator ^ 2
        let term_B := (A12 * A21 * x_A) / denominator ^ 2
        .ok (Real.exp (A12 * term_A), Real.exp (A21 * term_B))

/-- `isothermal_vle(x_A, T, antoine_A, antoine_B, A12, A21)`: total pressure
`P_T = x_A * gamma_A * P0_A + (1 - x_A) * gamma_B * P0_B` and vapor fraction
`y_A = x_A * gamma_A * P0_A / P_T`, propagating any error of the building
blocks. Antoine constants are the triples `(A, B, C)` the Python code indexes
as `antoine[0], antoine[1], antoine[2]`. -/
def isothermal_vle (x_A T : ℝ) (antoine_A antoine_B : ℝ × ℝ × ℝ)
    (van_laar_A12 van_laar_A21 : ℝ) : Except VLEError (ℝ × ℝ × ℝ × ℝ) :=
  match van_laar_activity_coefficients x_A van_laar_A12 van_laar_A21 with
  | .error e => .error e
  | .ok (gamma_A, gamma_B) =>
    match antoine_pressure antoine_A.1 antoine_A.2.1 antoine_A.2.2 T with
    | .error e => .error e
    | .ok P0_A =>
      match antoine_pressure antoine_B.1 antoine_B.2.1 antoine_B.2.2 T with
      | .error e => .error e
      | .ok P0_B =>
        let P_T := x_A * gamma_A * P0_A + (1 - x_A) * gamma_B * P0_B
        let y_A := (x_A * gamma_A * P0_A) / P_T
        .ok (P_T, y_A, gamma_A, gamma_B)

/-- The inner `objective_function(T_guess)` of `isobaric_vle`: the normalized
bubble-point residual, with the source's `try/except ValueError` returning the
large residual `1e10` whenever the Van Laar or either Antoine evaluation
raises. -/
def objective_function (x_A P_T : ℝ) (antoine_A antoine_B : ℝ × ℝ × ℝ)
    (van_laar_A12 van_laar_A21 : ℝ) (T_guess : ℝ) : ℝ :=
  match van_laar_activity_coefficients x_A van_laar_A12 van_laar_A21 with
  | .error _ => 1e10
  | .ok (gamma_A, gamma_B) =>
    match antoine_pressure antoine_A.1 antoine_A.2.1 antoine_A.2.2 T_guess with
    | .error _ => 1e10
    | .ok P0_A =>
      match antoine_pressure antoine_B.1 antoine_B.2.1 antoine_B.2.2 T_guess with
      | .error _ => 1e10
      | .ok P0_B =>
        (x_A * gamma_A * P0_A / P_T) + ((1 - x_A) * gamma_B * P0_B / P_T) - 1

/-- `isobaric_vle(x_A, P_T, antoine_A, antoine_B, A12, A21)`: runs the root
search `T_solution = solve(objective_function, 50)` (the source's
`fsolve(objective_function, 50)[0]`, abstracted as the parameter `solve`; the
returned value is used unconditionally, with no convergence check), then
recomputes the activity coefficients and both Antoine pressures at
`T_solution` outside the exception handler and returns
`(T_solution, y_A, gamma_A, gamma_B)` with `y_A = x_A * gamma_A * P0_A / P_T`. -/
def isobaric_vle (solve : (ℝ → ℝ) → ℝ → ℝ) (x_A P_T : ℝ)
    (antoine_A antoine_B : ℝ × ℝ × ℝ) (van_laar_A12 van_laar_A21 : ℝ) :
    Except VLEError (ℝ × ℝ × ℝ × ℝ) :=
  let T_solution :=
    solve (objective_function x_A P_T antoine_A antoine_B van_laar_A12 van_laar_A21) 50
  match van_laar_activity_coefficients x_A van_laar_A12 van_laar_A21 with
  | .error e => .error e
  | .ok (gamma_A, gamma_B) =>
    match antoine_pressure antoine_A.1 antoine_A.2.1 antoine_A.2.2 T_solution with
    | .error e => .error e
    | .ok P0_A =>
      match antoine_pressure antoine_B.1 antoine_B.2.1 antoine_B.2.2 T_solution with
      | .error e => .error e
      | .ok _P0_B =>
        .ok (T_solution, (x_A * gamma_A * P0_A) / P_T, gamma_A, gamma_B)

/-! Basic inversion and positivity facts about the building blocks. -/

lemma antoine_singular {A B C T : ℝ} (h : T + C = 0) :
    antoine_pressure A B C T = .error (.domainError antoineSingularMsg) := by
  simp [antoine_pressure, h]

lemma antoine_regular {A B C T : ℝ} (h : T + C ≠ 0) :
    antoine_pressure A B C T = .ok ((10 : ℝ) ^ (A - B / (T + C))) := by
  simp [antoine_pressure, h]

lemma antoine_ok_pos {A B C T p : ℝ}
    (h : antoine_pressure A B C T = .ok p) : 0 < p := by
  unfold antoine_pressure at h
  split at h
  · exact absurd h (by simp)
  · rw [Except.ok.injEq] at h
    exact h ▸ Real.rpow_pos_of_pos (by norm_num) _

lemma van_laar_at_zero (A12 A21 : ℝ) :
    van_laar_activity_coefficients 0 A12 A21 = .ok (Real.exp A12, 1) := by
  simp [van_laar_activity_coefficients]

lemma van_laar_at_one (A12 A21 : ℝ) :
    van_laar_activity_coefficients 1 A12 A21 = .ok (1, Real.exp A21) := by
  simp [van_laar_activity_coefficients]

lemma van_laar_general {x_A : ℝ} (A12 A21 : ℝ) (h0 : 0 < x_A) (h1 : x_A < 1)
    (hD : A12 * x_A + A21 * (1 - x_A) ≠ 0) :
    van_laar_activity_coefficients x_A A12 A21 =
      .ok (Real.exp (A12 * ((A12 * A21 * (1 - x_A)) / (A12 * x_A + A21 * (1 - x_A)) ^ 2)),
          Real.exp (A21 * ((A12 * A21 * x_A) / (A12 * x_A + A21 * (1 - x_A)) ^ 2))) := by
  simp [van_laar_activity_coefficients, h0.le, h1.le, h0.ne', (sub_pos.mpr h1).ne', hD]

lemma van_laar_error_of {x_A A12 A21 : ℝ}
    (h : ¬ (0 ≤ x_A ∧ x_A ≤ 1) ∨ (0 < x_A ∧ x_A < 1 ∧ A12 * x_A + A21 * (1 - x_A) = 0)) :
    ∃ e, van_laar_activity_coefficients x_A A12 A21 = .error e := by
  rcases h with h | ⟨h0, h1, hD⟩
  · exact ⟨.domainError compositionMsg, by simp [van_laar_activity_coefficients, h]⟩
  · exact ⟨.domainError denominatorMsg, by
      simp [van_laar_activity_coefficients, h0.le, h1.le, h0.ne',
        (sub_pos.mpr h1).ne', hD]⟩

lemma van_laar_ok_pos {x_A A12 A21 gA gB : ℝ}
    (h : van_laar_activity_coefficients x_A A12 A21 = .ok (gA, gB)) :
    0 < gA ∧ 0 < gB := by
  unfold van_laar_activity_coefficients at h
  simp only [] at h
  split at h
  · exact absurd h (by simp)
  · split at h
    · rw [Except.ok.injEq, Prod.mk.injEq] at h
      exact ⟨h.1 ▸ Real.exp_pos _, h.2 ▸ Real.exp_pos _⟩
    · split at h
      · rw [Except.ok.injEq, Prod.mk.injEq] at h
        exact ⟨h.1 ▸ Real.exp_pos _, h.2 ▸ Real.exp_pos _⟩
      · split at h
        · exact absurd h (by simp)
        · rw [Except.ok.injEq, Prod.mk.injEq] at h
          exact ⟨h.1 ▸ Real.exp_pos _, h.2 ▸ Real.exp_pos _⟩

lemma van_laar_ok_range {x_A A12 A21 : ℝ} {g : ℝ × ℝ}
    (h : van_laar_activity_coefficients x_A A12 A21 = .ok g) :
    0 ≤ x_A ∧ x_A ≤ 1 := by
  unfold van_laar_activity_coefficients at h
  split at h
  · exact absurd h (by simp)
  next hr => exact not_not.mp hr

/-! Claim theorems about the Van Laar model and the Antoine correlation. -/

/-- C1: on the general branch (`0 < x_A < 1`, nonzero denominator
`D = A12 * x_A + A21 * (1 - x_A)`), `van_laar_activity_coefficients` returns
exactly `gamma_A = exp (A12 * (A12 * A21 * (1 - x_A)) / D^2)` and
`gamma_B = exp (A21 * (A12 * A21 * x_A) / D^2)`: the asymmetric pairing in
which `A12` multiplies the `x_B` cross term and `A21` the `x_A` cross term. -/
theorem van_laar_general_formula (x_A A12 A21 : ℝ) (h0 : 0 < x_A) (h1 : x_A < 1)
    (hD : A12 * x_A + A21 * (1 - x_A) ≠ 0) :
    van_laar_activity_coefficients x_A A12 A21 =
      .ok (Real.exp (A12 * ((A12 * A21 * (1 - x_A)) / (A12 * x_A + A21 * (1 - x_A)) ^ 2)),
          Real.exp (A21 * ((A12 * A21 * x_A) / (A12 * x_A + A21 * (1 - x_A)) ^ 2))) :=
  van_laar_general A12 A21 h0 h1 hD

/-- Witness for C1 at `x_A = 1/2`, `A12 = A21 = 1`. -/
theorem van_laar_general_formula_witness :
    van_laar_activity_coefficients (1/2) 1 1 =
      .ok (Real.exp (1 * ((1 * 1 * (1 - 1/2)) / (1 * (1/2) + 1 * (1 - 1/2)) ^ 2)),
          Real.exp (1 * ((1 * 1 * (1/2)) / (1 * (1/2) + 1 * (1 - 1/2)) ^ 2))) :=
  van_laar_general_formula (1/2) 1 1 (by norm_num) (by norm_num) (by norm_num)

/-- C3: at the composition boundaries `van_laar_activity_coefficients` takes
the explicit infinite-dilution branches: at `x_A = 0` it returns
`(exp A12, exp 0) = (exp A12, 1)`, at `x_A = 1` it returns `(1, exp A21)`,
and neither boundary produces an error, for all parameters `A12`, `A21`. -/
theorem van_laar_boundary_values (A12 A21 : ℝ) :
    van_laar_activity_coefficients 0 A12 A21 = .ok (Real.exp A12, 1) ∧
    van_laar_activity_coefficients 1 A12 A21 = .ok (1, Real.exp A21) :=
  ⟨van_laar_at_zero A12 A21, van_laar_at_one A12 A21⟩

/-- C8: `antoine_pressure` fails with the Antoine-singularity `DomainError`
exactly when `T + C = 0`, and otherwise returns exactly
`10 ^ (A - B / (T + C))`. -/
theorem antoine_pressure_contract (A B C T : ℝ) :
    (T + C = 0 → antoine_pressure A B C T = .error (.domainError antoineSingularMsg)) ∧
    (T + C ≠ 0 → antoine_pressure A B C T = .ok ((10 : ℝ) ^ (A - B / (T + C)))) :=
  ⟨fun h => antoine_singular h, fun h => antoine_regular h⟩

/-- Witness for C8: the singular case `T = -C` errors, a regular case returns
the closed-form power. -/
theorem antoine_pressure_contract_witness :
    antoine_pressure 0 0 1 (-1) = .error (.domainError antoineSingularMsg) ∧
    antoine_pressure 0 0 1 0 = .ok ((10 : ℝ) ^ ((0 : ℝ) - 0 / (0 + 1))) :=
  ⟨(antoine_pressure_contract 0 0 1 (-1)).1 (by norm_num),
    (antoine_pressure_contract 0 0 1 0).2 (by norm_num)⟩

/-- C7: `van_laar_activity_coefficients` errors exactly when the composition
is out of `[0, 1]` or the composition is interior and the Van Laar
denominator vanishes; on every other input it returns strictly positive
activity coefficients. -/
theorem van_laar_error_characterization (x_A A12 A21 : ℝ) :
    ((∃ e, van_laar_activity_coefficients x_A A12 A21 = .error e) ↔
      ¬ (0 ≤ x_A ∧ x_A ≤ 1) ∨
        (0 < x_A ∧ x_A < 1 ∧ A12 * x_A + A21 * (1 - x_A) = 0)) ∧
    ∀ gamma_A gamma_B,
      van_laar_activity_coefficients x_A A12 A21 = .ok (gamma_A, gamma_B) →
        0 < gamma_A ∧ 0 < gamma_B := by
  refine ⟨⟨?_, van_laar_error_of⟩, fun gA gB h => van_laar_ok_pos h⟩
  rintro ⟨e, he⟩
  by_cases hr : 0 ≤ x_A ∧ x_A ≤ 1
  · by_cases hx0 : x_A = 0
    · rw [hx0, van_laar_at_zero] at he
      exact absurd he (by simp)
    · by_cases hx1 : x_A = 1
      · rw [hx1, van_laar_at_one] at he
        exact absurd he (by simp)
      · have h0 : 0 < x_A := lt_of_le_of_ne hr.1 (Ne.symm hx0)
        have h1 : x_A < 1 := lt_of_le_of_ne hr.2 hx1
        by_cases hD : A12 * x_A + A21 * (1 - x_A) = 0
        · exact Or.inr ⟨h0, h1, hD⟩
        · rw [van_laar_general A12 A21 h0 h1 hD] at he
          exact absurd he (by simp)
  · exact Or.inl hr

/-- Witness for C7: positivity of the returned coefficients at `x_A = 0`,
`A12 = A21 = 0`, and an error instance at the out-of-range `x_A = 2`. -/
theorem van_laar_error_characterization_witness :
    (0 < Real.exp 0 ∧ 0 < (1 : ℝ)) ∧
    ∃ e, van_laar_activity_coefficients 2 0 0 = .error e :=
  ⟨(van_laar_error_characterization 0 0 0).2 (Real.exp 0) 1 (van_laar_at_zero 0 0),
    (van_laar_error_characterization 2 0 0).1.mpr (Or.inl (by norm_num))⟩

/-! Inversion of a successful isothermal computation, and a trivial concrete
configuration (Antoine constants `(0, 0, 1)`, Van Laar parameters `(0, 0)`)
whose pressures and activity coefficients are all `1`, used by the concrete
witnesses below. -/

def trivialAntoine : ℝ × ℝ × ℝ := (0, 0, 1)

lemma van_laar_zero_zero : van_laar_activity_coefficients 0 0 0 = .ok (1, 1) := by
  simpa using van_laar_at_zero 0 0

lemma isothermal_trivial {T : ℝ} (hT : T + 1 ≠ 0) :
    isothermal_vle 0 T trivialAntoine trivialAntoine 0 0 = .ok (1, 0, 1, 1) := by
  unfold isothermal_vle
  rw [van_laar_zero_zero]
  norm_num [antoine_pressure, trivialAntoine, hT]

lemma isothermal_ok_inv {x_A T A12 A21 P_T y_A gA gB : ℝ} {aA aB : ℝ × ℝ × ℝ}
    (h : isothermal_vle x_A T aA aB A12 A21 = .ok (P_T, y_A, gA, gB)) :
    van_laar_activity_coefficients x_A A12 A21 = .ok (gA, gB) ∧
    ∃ P0_A P0_B,
      antoine_pressure aA.1 aA.2.1 aA.2.2 T = .ok P0_A ∧
      antoine_pressure aB.1 aB.2.1 aB.2.2 T = .ok P0_B ∧
      P_T = x_A * gA * P0_A + (1 - x_A) * gB * P0_B ∧
      y_A = (x_A * gA * P0_A) / P_T := by
  unfold isothermal_vle at h
  split at h
  · exact absurd h (by simp)
  next gamma_A gamma_B hvl =>
    split at h
    · exact absurd h (by simp)
    next P0_A hA =>
      split at h
      · exact absurd h (by simp)
      next P0_B hB =>
        simp only [Except.ok.injEq, Prod.mk.injEq] at h
        obtain ⟨hP, hy, hgA, hgB⟩ := h
        subst hgA
        subst hgB
        subst hP
        subst hy
        exact ⟨hvl, P0_A, P0_B, hA, hB, rfl, rfl⟩

lemma isothermal_ok_PT_pos {x_A T A12 A21 P_T y_A gA gB : ℝ} {aA aB : ℝ × ℝ × ℝ}
    (h : isothermal_vle x_A T aA aB A12 A21 = .ok (P_T, y_A, gA, gB)) : 0 < P_T := by
  obtain ⟨hvl, P0_A, P0_B, hA, hB, hP, hy⟩ := isothermal_ok_inv h
  obtain ⟨hgA, hgB⟩ := van_laar_ok_pos hvl
  obtain ⟨hx0, hx1⟩ := van_laar_ok_range hvl
  have hpA := antoine_ok_pos hA
  have hpB := antoine_ok_pos hB
  rcases eq_or_lt_of_le hx0 with hx | hx
  · rw [hP, ← hx]
    simpa using mul_pos hgB hpB
  · rw [hP]
    exact add_pos_of_pos_of_nonneg (mul_pos (mul_pos hx hgA) hpA)
      (mul_nonneg (mul_nonneg (sub_nonneg.mpr hx1) hgB.le) hpB.le)

/-- C2: whenever the Van Laar step succeeds and neither Antoine evaluation is
singular, `isothermal_vle` returns exactly
`P_T = x_A * gamma_A * P0_A + (1 - x_A) * gamma_B * P0_B` and
`y_A = x_A * gamma_A * P0_A / P_T`, so the mass balance
`x_A * gamma_A * P0_A + (1 - x_A) * gamma_B * P0_B = P_T` holds exactly. -/
theorem isothermal_vle_formula (x_A T : ℝ) (aA aB : ℝ × ℝ × ℝ)
    (A12 A21 gamma_A gamma_B : ℝ)
    (hvl : van_laar_activity_coefficients x_A A12 A21 = .ok (gamma_A, gamma_B))
    (hA : T + aA.2.2 ≠ 0) (hB : T + aB.2.2 ≠ 0) :
    ∃ P0_A P0_B P_T y_A,
      antoine_pressure aA.1 aA.2.1 aA.2.2 T = .ok P0_A ∧
      antoine_pressure aB.1 aB.2.1 aB.2.2 T = .ok P0_B ∧
      isothermal_vle x_A T aA aB A12 A21 = .ok (P_T, y_A, gamma_A, gamma_B) ∧
      P_T = x_A * gamma_A * P0_A + (1 - x_A) * gamma_B * P0_B ∧
      y_A = (x_A * gamma_A * P0_A) / P_T ∧
      x_A * gamma_A * P0_A + (1 - x_A) * gamma_B * P0_B = P_T := by
  refine ⟨(10 : ℝ) ^ (aA.1 - aA.2.1 / (T + aA.2.2)),
    (10 : ℝ) ^ (aB.1 - aB.2.1 / (T + aB.2.2)), _, _,
    by simp [antoine_pressure, hA], by simp [antoine_pressure, hB], ?_, rfl, rfl, rfl⟩
  unfold isothermal_vle
  rw [hvl]
  simp [antoine_pressure, hA, hB]

/-- Witness for C2 on the trivial configuration at `x_A = 0`, `T = 0`. -/
theorem isothermal_vle_formula_witness :
    ∃ P0_A P0_B P_T y_A,
      antoine_pressure trivialAntoine.1 trivialAntoine.2.1 trivialAntoine.2.2 0 = .ok P0_A ∧
      antoine_pressure trivialAntoine.1 trivialAntoine.2.1 trivialAntoine.2.2 0 = .ok P0_B ∧
      isothermal_vle 0 0 trivialAntoine trivialAntoine 0 0 = .ok (P_T, y_A, 1, 1) ∧
      P_T = 0 * 1 * P0_A + (1 - 0) * 1 * P0_B ∧
      y_A = (0 * 1 * P0_A) / P_T ∧
      0 * 1 * P0_A + (1 - 0) * 1 * P0_B = P_T :=
  isothermal_vle_formula 0 0 trivialAntoine trivialAntoine 0 0 1 1
    van_laar_zero_zero (by norm_num [trivialAntoine]) (by norm_num [trivialAntoine])

/-- Counterexample to C4 as stated: at the valid composition `x_A = 0` the
isothermal computation succeeds and returns `y_A = 0`, which is not strictly
inside `(0, 1)`. -/
theorem isothermal_yA_boundary_counterexample :
    isothermal_vle 0 0 trivialAntoine trivialAntoine 0 0 = .ok (1, 0, 1, 1) ∧
    ¬ (0 < (0 : ℝ) ∧ (0 : ℝ) < 1) :=
  ⟨isothermal_trivial (by norm_num), by norm_num⟩

/-- C4 (amended): on every successful isothermal computation `P_T > 0`, and
`y_A ∈ [0, 1]`; `y_A` lies strictly inside `(0, 1)` whenever `0 < x_A < 1`,
while at the boundary compositions `x_A = 0` and `x_A = 1` it equals `0`
and `1` respectively. -/
theorem isothermal_vle_output_bounds (x_A T : ℝ) (aA aB : ℝ × ℝ × ℝ)
    (A12 A21 P_T y_A gamma_A gamma_B : ℝ)
    (h : isothermal_vle x_A T aA aB A12 A21 = .ok (P_T, y_A, gamma_A, gamma_B)) :
    0 < P_T ∧ 0 ≤ y_A ∧ y_A ≤ 1 ∧
      (0 < x_A → x_A < 1 → 0 < y_A ∧ y_A < 1) ∧
      (x_A = 0 → y_A = 0) ∧ (x_A = 1 → y_A = 1) := by
  obtain ⟨hvl, P0_A, P0_B, hA, hB, hP, hy⟩ := isothermal_ok_inv h
  obtain ⟨hgA, hgB⟩ := van_laar_ok_pos hvl
  obtain ⟨hx0, hx1⟩ := van_laar_ok_range hvl
  have hpA := antoine_ok_pos hA
  have hpB := antoine_ok_pos hB
  have ht1 : 0 ≤ x_A * gamma_A * P0_A :=
    mul_nonneg (mul_nonneg hx0 hgA.le) hpA.le
  have ht2 : 0 ≤ (1 - x_A) * gamma_B * P0_B :=
    mul_nonneg (mul_nonneg (sub_nonneg.mpr hx1) hgB.le) hpB.le
  have hPT : 0 < P_T := isothermal_ok_PT_pos h
  refine ⟨hPT, ?_, ?_, ?_, ?_, ?_⟩
  · rw [hy]
    exact div_nonneg ht1 hPT.le
  · rw [hy, div_le_one hPT, hP]
    exact le_add_of_nonneg_right ht2
  · intro hlo hhi
    constructor
    · rw [hy]
      exact div_pos (mul_pos (mul_pos hlo hgA) hpA) hPT
    · rw [hy, div_lt_one hPT, hP]
      exact lt_add_of_pos_right _ (mul_pos (mul_pos (sub_pos.mpr hhi) hgB) hpB)
  · intro hx
    rw [hy, hx]
    simp
  · intro hx
    rw [hy, hP, hx]
    simp [(mul_pos hgA hpA).ne']

/-- Witness for the amended C4 on the trivial configuration at `x_A = 0`. -/
theorem isothermal_vle_output_bounds_witness :
    0 < (1 : ℝ) ∧ 0 ≤ (0 : ℝ) ∧ (0 : ℝ) ≤ 1 ∧
      (0 < (0 : ℝ) → (0 : ℝ) < 1 → 0 < (0 : ℝ) ∧ (0 : ℝ) < 1) ∧
      ((0 : ℝ) = 0 → (0 : ℝ) = 0) ∧ ((0 : ℝ) = 1 → (0 : ℝ) = 1) :=
  isothermal_vle_output_bounds 0 0 trivialAntoine trivialAntoine 0 0 1 0 1 1
    (isothermal_trivial (by norm_num))

/-! The isobaric mode: the objective function, the masking of errors during
the root search, and the unconditional use of the solver's result. -/

lemma antoine_trivial_ok {T : ℝ} (hT : T + 1 ≠ 0) :
    antoine_pressure trivialAntoine.1 trivialAntoine.2.1 trivialAntoine.2.2 T = .ok 1 := by
  norm_num [antoine_pressure, trivialAntoine, hT]

lemma objective_trivial_x0 (P_T T : ℝ) :
    objective_function 0 P_T trivialAntoine trivialAntoine 0 0 T =
      if T + 1 = 0 then 1e10 else 1 / P_T - 1 := by
  unfold objective_function
  rw [van_laar_zero_zero]
  by_cases hT : T + 1 = 0
  · rw [if_pos hT,
      show antoine_pressure trivialAntoine.1 trivialAntoine.2.1 trivialAntoine.2.2 T =
          .error (.domainError antoineSingularMsg) from
        antoine_singular (by simpa [trivialAntoine] using hT)]
  · rw [if_neg hT, antoine_trivial_ok hT]
    norm_num

/-- C9: whenever a trial temperature of the isobaric search hits an Antoine
singularity for either species, the objective function evaluates to the large
residual `1e10` instead of producing an error. -/
theorem objective_antoine_singularity_masked (x_A P_T : ℝ) (aA aB : ℝ × ℝ × ℝ)
    (A12 A21 T_guess : ℝ)
    (h : T_guess + aA.2.2 = 0 ∨ T_guess + aB.2.2 = 0) :
    objective_function x_A P_T aA aB A12 A21 T_guess = 1e10 := by
  unfold objective_function
  split
  · rfl
  next gA gB hvl =>
    rcases h with h | h
    · rw [antoine_singular h]
    · split
      · rfl
      next P0_A hA =>
        rw [antoine_singular h]

/-- Witness for C9: the trivial configuration at the singular trial
temperature `T_guess = -1`. -/
theorem objective_antoine_singularity_masked_witness :
    objective_function 0 1 trivialAntoine trivialAntoine 0 0 (-1) = 1e10 :=
  objective_antoine_singularity_masked 0 1 trivialAntoine trivialAntoine 0 0 (-1)
    (Or.inl (by norm_num [trivialAntoine]))

/-- C5 fails on the code (code bug): with `x_A = 0`, `P_T = 2` and the trivial
Antoine constants the objective function has no root at all (it is `-1/2` at
every regular trial temperature and `1e10` at the singular one), so no root
search can converge; yet `isobaric_vle` performs no convergence check and,
when the solver returns its initial guess `50` as scipy's `fsolve` does on
failure, it returns `T = 50` as a converged solution instead of surfacing a
"no equilibrium temperature found" error. -/
theorem isobaric_no_convergence_check :
    (∀ T, objective_function 0 2 trivialAntoine trivialAntoine 0 0 T = 1e10 ∨
      objective_function 0 2 trivialAntoine trivialAntoine 0 0 T = -(1/2)) ∧
    isobaric_vle (fun _ T0 => T0) 0 2 trivialAntoine trivialAntoine 0 0 =
      .ok (50, 0, 1, 1) := by
  constructor
  · intro T
    rw [objective_trivial_x0]
    split
    · exact Or.inl rfl
    · exact Or.inr (by norm_num)
  · unfold isobaric_vle
    simp only []
    rw [van_laar_zero_zero, antoine_trivial_ok (by norm_num : (50 : ℝ) + 1 ≠ 0)]
    norm_num

/-- C6: the two modes are inverses of the one bubble-point equation: if the
isothermal mode returns `(P_T, y_A, gamma_A, gamma_B)` at temperature `T`,
then `T` is an exact root of the isobaric objective at target pressure `P_T`,
and the isobaric mode whose root search returns that root reproduces
`(T, y_A, gamma_A, gamma_B)` exactly. -/
theorem vle_round_trip (solve : (ℝ → ℝ) → ℝ → ℝ) (x_A T : ℝ) (aA aB : ℝ × ℝ × ℝ)
    (A12 A21 P_T y_A gamma_A gamma_B : ℝ)
    (hiso : isothermal_vle x_A T aA aB A12 A21 = .ok (P_T, y_A, gamma_A, gamma_B))
    (hsolve : solve (objective_function x_A P_T aA aB A12 A21) 50 = T) :
    objective_function x_A P_T aA aB A12 A21 T = 0 ∧
    isobaric_vle solve x_A P_T aA aB A12 A21 = .ok (T, y_A, gamma_A, gamma_B) := by
  obtain ⟨hvl, P0_A, P0_B, hA, hB, hP, hy⟩ := isothermal_ok_inv hiso
  have hPT : 0 < P_T := isothermal_ok_PT_pos hiso
  constructor
  · unfold objective_function
    rw [hvl, hA, hB]
    simp only []
    rw [div_add_div_same, ← hP, div_self hPT.ne', sub_self]
  · unfold isobaric_vle
    simp only []
    rw [hsolve, hvl, hA, hB]
    simp only []
    rw [hy]

/-- Witness for C6 on the trivial configuration: isothermal at `T = 60` gives
`P_T = 1`, and an isobaric solve at `P_T = 1` returning the root `60`
recovers the same state. -/
theorem vle_round_trip_witness :
    objective_function 0 1 trivialAntoine trivialAntoine 0 0 60 = 0 ∧
    isobaric_vle (fun _ _ => 60) 0 1 trivialAntoine trivialAntoine 0 0 =
      .ok (60, 0, 1, 1) :=
  vle_round_trip (fun _ _ => 60) 0 60 trivialAntoine trivialAntoine 0 0 1 0 1 1
    (isothermal_trivial (by norm_num)) rfl

/-- C10: on a composition fault (`x_A` out of `[0, 1]`) or an interior Van
Laar denominator degeneracy, the objective function is masked to the constant
residual `1e10` during the whole search, but `isobaric_vle` still fails: the
post-solve recomputation of the activity coefficients happens outside the
exception handler, so the `DomainError` reaches the caller and no result is
returned. -/
theorem isobaric_vle_domain_error (solve : (ℝ → ℝ) → ℝ → ℝ) (x_A P_T : ℝ)
    (aA aB : ℝ × ℝ × ℝ) (A12 A21 : ℝ)
    (h : ¬ (0 ≤ x_A ∧ x_A ≤ 1) ∨ (0 < x_A ∧ x_A < 1 ∧ A12 * x_A + A21 * (1 - x_A) = 0)) :
    (∀ T_guess, objective_function x_A P_T aA aB A12 A21 T_guess = 1e10) ∧
    ∃ e, isobaric_vle solve x_A P_T aA aB A12 A21 = .error e := by
  obtain ⟨e, he⟩ := van_laar_error_of h
  constructor
  · intro T_guess
    unfold objective_function
    rw [he]
  · refine ⟨e, ?_⟩
    unfold isobaric_vle
    simp only []
    rw [he]

/-- Witness for C10 at the out-of-range composition `x_A = 2`. -/
theorem isobaric_vle_domain_error_witness :
    objective_function 2 1 trivialAntoine trivialAntoine 0 0 50 = 1e10 ∧
    ∃ e, isobaric_vle (fun _ T0 => T0) 2 1 trivialAntoine trivialAntoine 0 0 = .error e := by
  have h := isobaric_vle_domain_error (fun _ T0 => T0) 2 1 trivialAntoine trivialAntoine 0 0
    (Or.inl (by norm_num))
  exact ⟨h.1 50, h.2⟩

end

end BinariaNoideal
